import Mathlib

/-!
Verification development for the DailyLetterGame puzzle engine
(`src/daily_game`): a shallow embedding in Lean 4 of the pattern-template
engine (`patterns.py`), the Pattern Quality Score (`scoring.py`), the hint
generator (`hints.py`) and the stateful daily generator (`generator.py`),
together with theorems settling the frozen claims about them.

Modelling conventions:
* Python floats are embedded as exact rationals (`ℚ`).  `numpy`'s square
  root is embedded by `fsqrt`, the floor square root of numerator and
  denominator (exact on every value at which this development evaluates
  it; no theorem below depends on its value at a non-square).
* `np.isfinite` is identically true in the exact model (no NaN/Inf), so
  validity masks reduce to the explicit length filters.
* Calendar dates (`YYYY-MM-DD` strings, compared lexicographically in the
  source) are embedded as day numbers `Nat` with numeric comparison, which
  agrees with lexicographic comparison on well-formed dates.
* Files (`feature_table.npz`, `used_patterns.json`, `today.json`) are an
  explicit `State` record; raising an exception is returning `Except.error`.
-/

namespace DailyGame

/- Batteries marks the rational operations irreducible; re-allow unfolding so
that concrete runs of the embedded pipeline can be evaluated by `decide`. -/
attribute [local semireducible] Rat.add Rat.sub Rat.mul Rat.inv Rat.ofScientific

/-- Floor square root of a natural number by downward search: structural
recursion, so it evaluates inside the kernel. `sqrtAux n k` is the largest
`j ≤ k` with `j * j ≤ n` (and `0` when none is). -/
def sqrtAux (n : Nat) : Nat → Nat
  | 0 => 0
  | k + 1 => if (k + 1) * (k + 1) ≤ n then k + 1 else sqrtAux n k

/-- Floor square root of a natural number. -/
def natSqrt (n : Nat) : Nat := sqrtAux n n

/-- Floor square root of an integer (`0` on negatives), as `Int.sqrt`. -/
def intSqrt (x : Int) : Int := Int.ofNat (natSqrt x.toNat)

/-- Embedding of the floating-point square root used by `np.std`: square
root of numerator and denominator, mirroring Mathlib's `Rat.sqrt`.  It is
exact on ratios of perfect squares, which covers every concrete value this
development evaluates a standard deviation at. -/
def fsqrt (q : ℚ) : ℚ := mkRat (intSqrt q.num) (natSqrt q.den)

theorem sqrtAux_eq_zero_of_zero (k : Nat) : sqrtAux 0 k = 0 := by
  induction k with
  | zero => rfl
  | succ k ih => simp [sqrtAux, ih]

theorem one_le_sqrtAux (n k : Nat) (hn : 1 ≤ n) (hk : 1 ≤ k) : 1 ≤ sqrtAux n k := by
  induction k with
  | zero => omega
  | succ k ih =>
    by_cases h : (k + 1) * (k + 1) ≤ n
    · simp [sqrtAux, h]
    · rcases Nat.eq_zero_or_pos k with hk0 | hk1
      · subst hk0; simp at h; omega
      · simpa [sqrtAux, h] using ih hk1

theorem natSqrt_eq_zero_iff (n : Nat) : natSqrt n = 0 ↔ n = 0 := by
  constructor
  · intro h
    by_contra hn
    have h1 : 1 ≤ natSqrt n := one_le_sqrtAux n n (by omega) (by omega)
    omega
  · intro h; subst h; exact sqrtAux_eq_zero_of_zero 0

theorem fsqrt_eq_zero_iff (q : ℚ) (hq : 0 ≤ q) : fsqrt q = 0 ↔ q = 0 := by
  have hden : natSqrt q.den ≠ 0 := by
    rw [Ne, natSqrt_eq_zero_iff]; exact q.den_nz
  have hnum : 0 ≤ q.num := Rat.num_nonneg.2 hq
  rw [fsqrt, Rat.mkRat_eq_zero hden]
  constructor
  · intro h
    have : natSqrt q.num.toNat = 0 := by
      simpa [intSqrt] using h
    rw [natSqrt_eq_zero_iff] at this
    have : q.num = 0 := by omega
    exact Rat.num_eq_zero.1 this
  · intro h
    subst h
    simp [intSqrt, natSqrt_eq_zero_iff]

/-- Embedding of `np.mean` on a list of values. -/
def listMean (xs : List ℚ) : ℚ := xs.sum / xs.length

/-- Embedding of the population variance `np.var` (mean squared deviation). -/
def listVar (xs : List ℚ) : ℚ := listMean (xs.map (fun x => (x - listMean xs) ^ 2))

/-- Embedding of the population standard deviation `np.std` / `np.nanstd`
(there are no NaNs in the exact model). -/
def listStd (xs : List ℚ) : ℚ := fsqrt (listVar xs)

theorem listVar_nonneg (xs : List ℚ) : 0 ≤ listVar xs := by
  unfold listVar listMean
  apply div_nonneg
  · apply List.sum_nonneg
    intro x hx
    rcases List.mem_map.1 hx with ⟨y, _, rfl⟩
    positivity
  · positivity

theorem listStd_eq_zero_iff (xs : List ℚ) : listStd xs = 0 ↔ listVar xs = 0 :=
  fsqrt_eq_zero_iff _ (listVar_nonneg xs)

/-- Stable insertion of an element into a sorted list (auxiliary for the
sort embedding; structural recursion so concrete runs reduce in the
kernel). -/
def insertLe {α : Type} (le : α → α → Bool) (a : α) : List α → List α
  | [] => [a]
  | b :: l => if le a b then a :: b :: l else b :: insertLe le a l

/-- Stable insertion sort: the embedding of Python's stable `list.sort` and
of `np.sort`. -/
def insertionSort {α : Type} (le : α → α → Bool) : List α → List α
  | [] => []
  | a :: l => insertLe le a (insertionSort le l)

/-- Ascending sort, embedding `np.sort` (Python's sort is also stable, but no
claim depends on tie order among equals). -/
def sortQ (xs : List ℚ) : List ℚ := insertionSort (fun a b => decide (a ≤ b)) xs

/-- Embedding of `np.nanpercentile(arr, p)` with the default linear
interpolation: position `p/100 * (n-1)` into the sorted values, linearly
interpolated between the two neighbouring order statistics. -/
def percentileQ (xs : List ℚ) (p : ℚ) : ℚ :=
  let s := sortQ xs
  let n := s.length
  if n = 0 then 0
  else
    let pos : ℚ := p * ((n : ℚ) - 1) / 100
    let i : Nat := (⌊pos⌋).toNat
    let frac : ℚ := pos - (⌊pos⌋ : ℚ)
    if i + 1 < n then s.getD i 0 + frac * (s.getD (i + 1) 0 - s.getD i 0)
    else s.getD (n - 1) 0

/-- Embedding of Python's `round(q, 2)` (round half to even) on exact
rationals. -/
def round2 (q : ℚ) : ℚ :=
  let m := q * 100
  let f := ⌊m⌋
  let r : Int :=
    if m - (f : ℚ) < 1 / 2 then f
    else if (1 : ℚ) / 2 < m - (f : ℚ) then f + 1
    else if f % 2 = 0 then f else f + 1
  (r : ℚ) / 100

/-- One row of the feature table built by `features.build_feature_table`:
the word label and the eleven numeric feature columns of `FEATURE_FUNCS`. -/
structure Row where
  word : String
  length : ℚ
  unique_letters : ℚ
  entropy : ℚ
  max_letter_frequency : ℚ
  vowel_ratio : ℚ
  corpus_frequency : ℚ
  vowel_spacing_std : ℚ
  alphabetic_order_score : ℚ
  bigram_probability : ℚ
  edit_density : ℚ
  consonant_runs : ℚ
deriving DecidableEq

/-- Column lookup `table[name]` on a structured-array row (`patterns._get_column`
per row).  Unknown column names yield `0`; the source would raise a `KeyError`
there, but the pipeline only ever looks up the columns the table has. -/
def getCol (r : Row) (name : String) : ℚ :=
  if name = "length" then r.length
  else if name = "unique_letters" then r.unique_letters
  else if name = "entropy" then r.entropy
  else if name = "max_letter_frequency" then r.max_letter_frequency
  else if name = "vowel_ratio" then r.vowel_ratio
  else if name = "corpus_frequency" then r.corpus_frequency
  else if name = "vowel_spacing_std" then r.vowel_spacing_std
  else if name = "alphabetic_order_score" then r.alphabetic_order_score
  else if name = "bigram_probability" then r.bigram_probability
  else if name = "edit_density" then r.edit_density
  else if name = "consonant_runs" then r.consonant_runs
  else 0

/-- Fallback row for safe positional indexing (never selected in-bounds). -/
def defaultRow : Row :=
  { word := "", length := 0, unique_letters := 0, entropy := 0,
    max_letter_frequency := 0, vowel_ratio := 0, corpus_frequency := 0,
    vowel_spacing_std := 0, alphabetic_order_score := 0,
    bigram_probability := 0, edit_density := 0, consonant_runs := 0 }

/-- Embedding of `patterns.CandidatePattern` (a `NamedTuple`); the
`raw_scores` dict is an association list. -/
structure CandidatePattern where
  words : List String
  rule_description : String
  template_id : String
  metric_a : Option String
  metric_b : Option String
  percentile_used : Option ℚ
  constraint_desc : Option String
  raw_scores : List (String × ℚ)
deriving DecidableEq

/-- Length filter `(length_col >= min_word_length) & (length_col <= 18)`
shared by all three templates. -/
def maskLen (minLen : ℚ) (r : Row) : Bool :=
  decide (minLen ≤ r.length) && decide (r.length ≤ 18)

/-- Embedding of the even-spaced subsample
`idx[[int(i * step) for i in range(max_candidates)]]` applied when more than
`max_candidates` rows qualify; `int` truncates, which is `Int.floor` on the
nonnegative positions involved. -/
def evenSample {α : Type} (l : List α) (maxC : Nat) (d : α) : List α :=
  if l.length ≤ maxC then l
  else
    let step : ℚ := (l.length : ℚ) / (maxC : ℚ)
    (List.range maxC).map (fun (i : Nat) => l.getD ((⌊(i : ℚ) * step⌋).toNat) d)

/-- Rendering of a numeric template parameter into an f-string.  The source
interpolates the integer defaults (`5`, `6`), which print as their decimal
digits; this agrees with `ratRepr` on integral rationals, the only values
the pipeline passes. -/
def ratRepr (q : ℚ) : String :=
  if q.den = 1 then toString q.num else toString q.num ++ "/" ++ toString q.den

/-- The metric column over the length-filtered population
(`vals = col[valid]` of `patterns.template_extreme_outliers`;
`np.isfinite` is identically true in the exact model, so `valid` is the
length mask). -/
def extremeVals (table : List Row) (minLen : ℚ) (metric : String) : List ℚ :=
  (table.filter (maskLen minLen)).map (fun r => getCol r metric)

/-- The percentile threshold `thresh` of
`patterns.template_extreme_outliers`. -/
def extremeThresh (table : List Row) (ph pl minLen : ℚ) (useHigh : Bool)
    (metric : String) : ℚ :=
  if useHigh then percentileQ (extremeVals table minLen metric) ph
  else percentileQ (extremeVals table minLen metric) pl

/-- The selected rows `idx` of `patterns.template_extreme_outliers`:
length-eligible rows at or beyond the threshold, in table order
(`np.where` returns ascending positions). -/
def extremeSel (table : List Row) (ph pl minLen : ℚ) (useHigh : Bool)
    (metric : String) : List Row :=
  table.filter (fun r =>
    maskLen minLen r &&
      (if useHigh then
        decide (extremeThresh table ph pl minLen useHigh metric ≤ getCol r metric)
       else
        decide (getCol r metric ≤ extremeThresh table ph pl minLen useHigh metric)))

/-- One iteration of the metric loop of `patterns.template_extreme_outliers`:
the candidate the iteration appends for `metric`, or `none` when a guard
`continue`s. -/
def extremeForMetric (table : List Row) (ph pl minLen : ℚ) (maxC : Nat)
    (useHigh : Bool) (metric : String) : Option CandidatePattern :=
  if metric = "word" then none
  else if (table.filter (maskLen minLen)).length < 20 then none
  else if (extremeSel table ph pl minLen useHigh metric).length < 4 then none
  else
    some { words := (evenSample (extremeSel table ph pl minLen useHigh metric)
             maxC defaultRow).map (fun r => r.word)
           rule_description :=
             "Words with " ++ (if useHigh then "highest" else "lowest") ++ " " ++ metric
           template_id := "extreme_outliers"
           metric_a := some metric
           metric_b := none
           percentile_used := some (if useHigh then ph else pl)
           constraint_desc := some ("length>=" ++ ratRepr minLen)
           raw_scores :=
             [("outlier_strength", listMean ((evenSample
               (extremeSel table ph pl minLen useHigh metric) maxC defaultRow).map
                 (fun r => getCol r metric)))] }

/-- Embedding of `patterns.template_extreme_outliers`. -/
def template_extreme_outliers (table : List Row) (feature_names : List String)
    (ph pl minLen : ℚ) (maxC : Nat) (useHigh : Bool) : List CandidatePattern :=
  feature_names.filterMap (extremeForMetric table ph pl minLen maxC useHigh)

/-- One iteration of the metric loop of `patterns.template_constrained_extremes`
over the constraint-filtered sub-table. -/
def constrainedForMetric (subRows : List Row) (cMetric : String) (cMin pct : ℚ)
    (maxC : Nat) (metric : String) : Option CandidatePattern :=
  if metric = "word" ∨ metric = cMetric then none
  else if subRows.length < 10 then none
  else
    let thresh := percentileQ (subRows.map (fun r => getCol r metric)) pct
    let sel := subRows.filter (fun r => decide (thresh ≤ getCol r metric))
    if sel.length < 4 then none
    else
      let chosen := evenSample sel maxC defaultRow
      some { words := chosen.map (fun r => r.word)
             rule_description :=
               "Words with very high " ++ metric ++ " among words that have "
                 ++ cMetric ++ " â‰¥ " ++ ratRepr cMin
             template_id := "constrained_extremes"
             metric_a := some metric
             metric_b := some cMetric
             percentile_used := some pct
             constraint_desc := some (cMetric ++ ">=" ++ ratRepr cMin)
             raw_scores :=
               [("outlier_strength", listMean (chosen.map (fun r => getCol r metric)))] }

/-- Embedding of `patterns.template_constrained_extremes` (the rule string
reproduces the source file's literal bytes, mojibake included). -/
def template_constrained_extremes (table : List Row) (feature_names : List String)
    (cMetric : String) (cMin pct minLen : ℚ) (maxC : Nat) : List CandidatePattern :=
  let sub := table.filter (fun r => decide (cMin ≤ getCol r cMetric) && maskLen minLen r)
  if sub.length < 30 then []
  else feature_names.filterMap (constrainedForMetric sub cMetric cMin pct maxC)

/-- Embedding of `patterns._z_scores`: a zero-standard-deviation column maps
to the all-zero vector, otherwise standardize. -/
def zScores (xs : List ℚ) : List ℚ :=
  let m := listMean xs
  let s := listStd xs
  if s = 0 then xs.map (fun _ => 0)
  else xs.map (fun x => (x - m) / s)

/-- The fixed feature pairs of `patterns.template_ratio_anomalies`. -/
def ratioPairs : List (String × String) :=
  [("length", "unique_letters"), ("length", "entropy"),
   ("length", "max_letter_frequency"), ("entropy", "length"),
   ("vowel_ratio", "consonant_runs")]

/-- One iteration of the pair loop of `patterns.template_ratio_anomalies`. -/
def ratioForPair (table : List Row) (feature_names : List String) (minLen : ℚ)
    (maxC : Nat) (pr : String × String) : Option CandidatePattern :=
  if pr.1 ∈ feature_names ∧ pr.2 ∈ feature_names then
    let sub := table.filter (maskLen minLen)
    if sub.length < 20 then none
    else
      let za := zScores (sub.map (fun r => getCol r pr.1))
      let zb := zScores (sub.map (fun r => getCol r pr.2))
      let combo := List.zipWith (fun a b => a - b) za zb
      let thresh := percentileQ combo 99
      let selPairs := (sub.zip combo).filter (fun rc => decide (thresh ≤ rc.2))
      if selPairs.length < 4 then none
      else
        let chosen := evenSample selPairs maxC (defaultRow, 0)
        some { words := chosen.map (fun rc => rc.1.word)
               rule_description :=
                 "Words with unusually high " ++ pr.1 ++ " and low " ++ pr.2
                   ++ " (ratio anomaly)"
               template_id := "ratio_anomaly"
               metric_a := some pr.1
               metric_b := some pr.2
               percentile_used := some 99
               constraint_desc := none
               raw_scores :=
                 [("combo_z",
                   listMean ((selPairs.map (fun rc => rc.2)).take chosen.length))] }
  else none

/-- Embedding of `patterns.template_ratio_anomalies` (the unused
`z_threshold` parameter of the source is dropped). -/
def template_ratio_anomalies (table : List Row) (feature_names : List String)
    (minLen : ℚ) (maxC : Nat) : List CandidatePattern :=
  if (table.filter (maskLen minLen)).length < 50 then []
  else ratioPairs.filterMap (ratioForPair table feature_names minLen maxC)

/-- Embedding of `patterns.run_all_templates` with the source's default
template parameters. -/
def run_all_templates (table : List Row) (feature_names : List String)
    (maxPerTemplate : Nat) : List CandidatePattern :=
  (template_extreme_outliers table feature_names 99.9 0.1 5 8 true).take maxPerTemplate
    ++ (template_extreme_outliers table feature_names 99.9 0.1 5 8 false).take maxPerTemplate
    ++ (template_constrained_extremes table feature_names "unique_letters" 6 99 5 8).take maxPerTemplate
    ++ (template_ratio_anomalies table feature_names 5 8).take maxPerTemplate

/-- Embedding of `scoring._outlier_strength`. -/
def outlier_strength (c : CandidatePattern) (table : List Row) : ℚ :=
  if c.words = [] then 0
  else
    match c.metric_a with
    | none => 0
    | some m =>
      if table.length < 10 then 0
      else
        let col := table.map (fun r => getCol r m)
        let meanAll := listMean col
        let stdAll := listStd col
        if stdAll = 0 then 0
        else
          let selRows := table.filter (fun r => decide (r.word ∈ c.words))
          if selRows.length = 0 then 0
          else |listMean (selRows.map (fun r => getCol r m)) - meanAll| / stdAll

/-- Embedding of `scoring._internal_coherence`. -/
def internal_coherence (c : CandidatePattern) (table : List Row) : ℚ :=
  if c.words = [] then 0
  else
    match c.metric_a with
    | none => 0
    | some m =>
      let col := (table.filter (fun r => decide (r.word ∈ c.words))).map
        (fun r => getCol r m)
      if col.length < 2 then 1
      else
        let stdSel := listStd col
        let stdAll := listStd (table.map (fun r => getCol r m))
        if stdAll = 0 then 1
        else max 0 (1 - stdSel / stdAll)

/-- Embedding of `scoring._human_guessability`. -/
def human_guessability (c : CandidatePattern) : ℚ :=
  if c.words = [] then 0
  else
    let lens : List ℚ := c.words.map (fun w => (w.length : ℚ))
    let meanLen := listMean lens
    let lenScore : ℚ :=
      if 4 ≤ meanLen ∧ meanLen ≤ 10 then 1
      else if 3 ≤ meanLen ∧ meanLen ≤ 12 then 0.7
      else 0.4
    let weird : ℚ := ((lens.filter (fun l => decide (l < 3) || decide (14 < l))).length : ℚ)
    let weirdPenalty := weird / max (lens.length : ℚ) 1
    max 0 (lenScore - weirdPenalty * 0.3)

/-- Count of rare letters (`"jqxzkv"`) in a word. -/
def rareCount (w : String) : Nat :=
  (w.data.filter (fun ch => decide (ch ∈ ['j', 'q', 'x', 'z', 'k', 'v']))).length

/-- Embedding of `scoring._obscurity_penalty`. -/
def obscurity_penalty (c : CandidatePattern) : ℚ :=
  if c.words = [] then 0
  else
    let penalty : ℚ := (c.words.map (fun w =>
      (if 12 < w.length then (0.2 : ℚ) else 0)
        + 0.05 * ((rareCount w : ℚ) / max (w.length : ℚ) 1))).sum
    min 1 (penalty / (c.words.length : ℚ))

/-- Embedding of `scoring.pqs`, written exactly as the source combines the
four sub-scores. -/
def pqs (c : CandidatePattern) (table : List Row) : ℚ :=
  outlier_strength c table * 0.4 + internal_coherence c table * 0.3
    + human_guessability c * 0.4 - obscurity_penalty c * 0.5

/-- Embedding of `scoring.filter_and_rank`: keep word-count and score
survivors, then sort by score descending (Python's stable sort; `mergeSort`
is likewise stable). -/
def filter_and_rank (candidates : List CandidatePattern) (table : List Row)
    (min_pqs : ℚ) (min_words max_words : Nat) : List (CandidatePattern × ℚ) :=
  let scored := candidates.filterMap (fun c =>
    if min_words ≤ c.words.length ∧ c.words.length ≤ max_words then
      let s := pqs c table
      if min_pqs ≤ s then some (c, s) else none
    else none)
  insertionSort (fun a b => decide (b.2 ≤ a.2)) scored

/-- Embedding of `scoring.difficulty_from_pqs`. -/
def difficulty_from_pqs (s : ℚ) : String :=
  if 2.2 ≤ s then "easy" else if 1.4 ≤ s then "medium" else "hard"

/-- Lower-casing a string character by character, embedding Python's
`str.lower` on the ASCII text the engine handles. -/
def strLower (s : String) : String := ⟨s.data.map Char.toLower⟩

/-- Embedding of Python's substring test `needle in hay`. -/
def strContains (hay needle : String) : Bool :=
  hay.data.tails.any (fun t => needle.data.isPrefixOf t)

/-- Replace the leftmost occurrence of `old` (auxiliary, on character lists). -/
def replaceFirstAux (old new : List Char) : List Char → List Char
  | [] => []
  | c :: rest =>
    if List.isPrefixOf old (c :: rest) then new ++ (c :: rest).drop old.length
    else c :: replaceFirstAux old new rest

/-- Embedding of Python's `s.replace(old, new, 1)`. -/
def replaceFirst (s old new : String) : String :=
  ⟨replaceFirstAux old.data new.data s.data⟩

/-- The literal hint dictionary `hints.METRIC_HINTS`. -/
def metricHints (metric : String) : Option (List String) :=
  if metric = "length" then some
    ["The pattern is about how long the words are.",
     "These words are similar in their number of letters.",
     "They all have an unusual word length compared to most English words."]
  else if metric = "unique_letters" then some
    ["The pattern is about how many different letters appear in each word.",
     "Count the distinct letters in each word.",
     "These words have an unusual number of unique letters (either very few or very many)."]
  else if metric = "entropy" then some
    ["The pattern is about letter repetition and variety.",
     "Some letters repeat a lot in these words, or they're very mixed — the rule picks one extreme.",
     "They share an extreme in how predictable or random their letter distribution is."]
  else if metric = "max_letter_frequency" then some
    ["The pattern is about one letter repeating a lot in each word.",
     "In each word, a single letter appears much more often than the others.",
     "These words have an unusually high (or low) “most repeated letter” count."]
  else if metric = "vowel_ratio" then some
    ["The pattern is about vowels vs consonants.",
     "Look at the proportion of vowels in each word.",
     "These words have an unusual ratio of vowels to consonants."]
  else if metric = "corpus_frequency" then some
    ["The pattern is about how common or rare these words are in real English.",
     "Think about how often you'd see these words in books or speech.",
     "These words are similar in how frequently they appear in the language."]
  else if metric = "vowel_spacing_std" then some
    ["The pattern is about where vowels sit in the word.",
     "Look at the spacing or gaps between consecutive vowels.",
     "These words have unusually even or uneven spacing between their vowels."]
  else if metric = "alphabetic_order_score" then some
    ["The pattern is about the order of letters in the alphabet.",
     "Look at whether the letters in each word follow A–Z order.",
     "These words have letters that are unusually close to (or far from) alphabetical order."]
  else if metric = "bigram_probability" then some
    ["The pattern is about two-letter combinations.",
     "Think about how common or rare the letter pairs in these words are.",
     "These words have unusually common (or rare) two-letter sequences."]
  else if metric = "edit_density" then some
    ["The pattern is about how unusual the letter combinations are.",
     "Think about rare vs common letter pairs in these words.",
     "These words share an extreme in how “weird” or “normal” their letter combos are."]
  else if metric = "consonant_runs" then some
    ["The pattern is about groups of consonants.",
     "Count how many blocks of consonants (without vowels) appear in each word.",
     "These words have an unusual number of consonant clusters."]
  else none

/-- The dictionary lookup `METRIC_HINTS.get(metric, METRIC_HINTS["entropy"])`. -/
def metricHintsD (metric : String) : List String :=
  match metricHints metric with
  | some l => l
  | none => (metricHints "entropy").getD []

/-- Embedding of `hints._direction_from_rule`. -/
def direction_from_rule (rule : String) : String :=
  let r := strLower rule
  if strContains r "lowest" || strContains r "low " then "low" else "high"

/-- The metric `hints.generate_hints` keys on: `pattern.metric_a or
"entropy"` (Python's `or` also replaces the empty string). -/
def effMetric (p : CandidatePattern) : String :=
  match p.metric_a with
  | none => "entropy"
  | some s => if s = "" then "entropy" else s

/-- Embedding of `hints.generate_hints`. -/
def generate_hints (p : CandidatePattern) : List String :=
  let hs := metricHintsD (effMetric p)
  let direction := direction_from_rule p.rule_description
  let h1 := hs.getD 0 ""
  let h2 := hs.getD 1 ""
  let h3 :=
    if p.template_id = "extreme_outliers" ∧ 2 < hs.length then
      let b := hs.getD 2 ""
      if strContains b "unusual"
          && !(strContains (strLower b) "high")
          && !(strContains (strLower b) "low") then
        replaceFirst b "unusual" ("unusually " ++ direction)
      else b
    else if 2 < hs.length then hs.getD 2 "" else h2
  [h1, h2, h3]

/-- Module constants of `generator.py`. -/
def MIN_PQS : ℚ := 0.7

/-- Rolling no-reuse window for rule signatures (days). -/
def NO_REUSE_DAYS : Nat := 30

/-- Cap on per-word reuse within the rolling monthly window. -/
def MAX_WORD_REUSE_PER_MONTH : Nat := 2

deriving instance DecidableEq for Except

/-- Failures of the generator: the missing feature table
(`FileNotFoundError`) and a malformed JSON file (`json.JSONDecodeError`). -/
inductive Err where
  | missingTable
  | malformedJson
deriving DecidableEq

/-- One persisted entry of the `used_patterns.json` history log, as
`generator.save_used_pattern` writes it.  Dates are day numbers (the source
stores `YYYY-MM-DD` strings and compares them lexicographically, which on
well-formed dates is the numeric order of day numbers). -/
structure UsedEntry where
  date : Nat
  rule : String
  template_id : String
  metric_a : Option String
  metric_b : Option String
  constraint_desc : Option String
  words : List String
  pqs : ℚ
deriving DecidableEq

/-- The `used_patterns.json` file on disk: missing, unparseable, or a list
of entries. -/
inductive HistFile where
  | absent
  | corrupt
  | entries (l : List UsedEntry)
deriving DecidableEq

/-- The payload `generator._write_today_json` stores in `today.json`. -/
structure TodayPayload where
  date : Nat
  words : List String
  hints : List String
  rule : String
  difficulty : String
  pqs : ℚ
  metric_a : Option String
deriving DecidableEq

/-- The `today.json` file on disk. -/
inductive TodayFile where
  | absent
  | corrupt
  | stored (t : TodayPayload)
deriving DecidableEq

/-- The file-system state the generator reads and writes: the cached feature
table artifact (with its stored feature-name list), the history log, and the
today record. -/
structure State where
  table : Option (List Row × List String)
  hist : HistFile
  todayFile : TodayFile
deriving DecidableEq

/-- Embedding of `generator.load_feature_table` (raises when not built). -/
def load_feature_table (s : State) : Except Err (List Row × List String) :=
  match s.table with
  | none => .error .missingTable
  | some t => .ok t

/-- Embedding of `generator.load_used_patterns`: a missing file is an empty
history, but an unparseable file raises `json.JSONDecodeError` (the source
has no try/except here, unlike `load_today`). -/
def load_used_patterns (h : HistFile) : Except Err (List UsedEntry) :=
  match h with
  | .absent => .ok []
  | .corrupt => .error .malformedJson
  | .entries l => .ok l

/-- Python's `f"{x}"` on an optional string: `None` renders as `"None"`. -/
def fmtOptNone (o : Option String) : String :=
  match o with
  | none => "None"
  | some s => s

/-- Python's `x or ''` on an optional string. -/
def fmtOptOr (o : Option String) : String :=
  match o with
  | none => ""
  | some s => s

/-- Embedding of `generator._pattern_signature`. -/
def pattern_signature (p : CandidatePattern) : String :=
  p.template_id ++ "|" ++ fmtOptNone p.metric_a ++ "|" ++ fmtOptOr p.metric_b
    ++ "|" ++ fmtOptOr p.constraint_desc

/-- The signature string `generator._recent_signatures` builds from a
history entry (all keys are present in entries the generator writes). -/
def entry_signature (u : UsedEntry) : String :=
  u.template_id ++ "|" ++ fmtOptNone u.metric_a ++ "|" ++ fmtOptOr u.metric_b
    ++ "|" ++ fmtOptOr u.constraint_desc

/-- Embedding of `generator._recent_signatures` (a Python set; a list with
the same membership). -/
def recent_signatures (used : List UsedEntry) (today withinDays : Nat) : List String :=
  (used.filter (fun u => decide (today - withinDays ≤ u.date))).map entry_signature

/-- Embedding of `generator._word_use_counts` as the counting function the
dict tabulates: occurrences of `w` across entries dated in the last 31 days
(`counts.get(w, 0)`). -/
def word_use_count (used : List UsedEntry) (today : Nat) (w : String) : Nat :=
  ((used.filter (fun u => decide (today - 31 ≤ u.date))).map
    (fun u => u.words.count w)).sum

/-- The candidate loop of `generator.select_best_pattern`: first scored
candidate whose signature is not recent and (when the flag is set) whose
words are not overused. -/
def pickFirst (recentSigs : List String) (skipOver : Bool)
    (wordCount : String → Nat) :
    List (CandidatePattern × ℚ) → Option (CandidatePattern × ℚ)
  | [] => none
  | (c, s) :: rest =>
    if pattern_signature c ∈ recentSigs then
      pickFirst recentSigs skipOver wordCount rest
    else if skipOver ∧
        (c.words.filter (fun w => decide (MAX_WORD_REUSE_PER_MONTH ≤ wordCount w))) ≠ [] then
      pickFirst recentSigs skipOver wordCount rest
    else some (c, s)

/-- Embedding of `generator.select_best_pattern` (note the call passes
`min_pqs=MIN_PQS`, `min_words=4`, `max_words=10`; the history file is only
read once some candidate scores through). -/
def select_best_pattern (table : List Row) (feature_names : List String)
    (skipRecent skipOver : Bool) (hist : HistFile) (today : Nat) :
    Except Err (Option (CandidatePattern × ℚ)) :=
  let candidates := run_all_templates table feature_names 40
  let scored := filter_and_rank candidates table MIN_PQS 4 10
  if scored = [] then .ok none
  else
    match load_used_patterns hist with
    | .error e => .error e
    | .ok used =>
      let recentSigs :=
        if skipRecent then recent_signatures used today NO_REUSE_DAYS else []
      let wordCount : String → Nat :=
        fun w => if skipOver then word_use_count used today w else 0
      .ok (pickFirst recentSigs skipOver wordCount scored)

/-- Embedding of `generator.save_used_pattern`: re-read the log (raising on
a corrupt file), append today's entry, write back. -/
def save_used_pattern (p : CandidatePattern) (score : ℚ) (today : Nat)
    (s : State) : Except Err State :=
  match load_used_patterns s.hist with
  | .error e => .error e
  | .ok used =>
    .ok { s with hist := .entries (used ++
      [{ date := today, rule := p.rule_description, template_id := p.template_id,
         metric_a := p.metric_a, metric_b := p.metric_b,
         constraint_desc := p.constraint_desc, words := p.words, pqs := score }]) }

/-- Embedding of `generator.load_today`: missing, unparseable (caught!) or
stale records read as `None`. -/
def load_today (today : Nat) (s : State) : Option TodayPayload :=
  match s.todayFile with
  | .absent => none
  | .corrupt => none
  | .stored t => if t.date = today then some t else none

/-- Embedding of `generator._write_today_json`. -/
def write_today_json (p : CandidatePattern) (score : ℚ) (today : Nat)
    (s : State) : State :=
  let t : TodayPayload :=
    { date := today, words := p.words, hints := generate_hints p,
      rule := p.rule_description, difficulty := difficulty_from_pqs score,
      pqs := round2 score, metric_a := p.metric_a }
  { s with todayFile := TodayFile.stored t }

/-- A puzzle dict returned to callers.  The three dict shapes of the source
(`_puzzle_dict`, `generate_daily`'s return, the `today.json` record) share
these fields; a key a shape lacks is `none` (`template_id` is absent from
the today record, `date` is absent from `_puzzle_dict`). -/
structure Payload where
  words : List String
  rule : String
  template_id : Option String
  pqs : ℚ
  difficulty : String
  hints : List String
  metric_a : Option String
  date : Option Nat
deriving DecidableEq

/-- Embedding of `generator._puzzle_dict`. -/
def puzzle_dict (p : CandidatePattern) (score : ℚ) : Payload :=
  { words := p.words, rule := p.rule_description, template_id := some p.template_id,
    pqs := round2 score, difficulty := difficulty_from_pqs score,
    hints := generate_hints p, metric_a := p.metric_a, date := none }

/-- The dict `load_today` returns, as a `Payload` (no `template_id` key). -/
def payloadOfToday (t : TodayPayload) : Payload :=
  { words := t.words, rule := t.rule, template_id := none, pqs := t.pqs,
    difficulty := t.difficulty, hints := t.hints, metric_a := t.metric_a,
    date := some t.date }

/-- Embedding of `generator.generate_daily`: always selects afresh, appends
to the history log and overwrites the today record.  The pair carries the
resulting file-system state (unchanged when an exception propagates). -/
def generate_daily (today : Nat) (s : State) : Except Err (Option Payload) × State :=
  match load_feature_table s with
  | .error e => (.error e, s)
  | .ok (table, feature_names) =>
    match select_best_pattern table feature_names true true s.hist today with
    | .error e => (.error e, s)
    | .ok none => (.ok none, s)
    | .ok (some (p, score)) =>
      match save_used_pattern p score today s with
      | .error e => (.error e, s)
      | .ok s1 =>
        let s2 := write_today_json p score today s1
        (.ok (some { puzzle_dict p score with date := some today }), s2)

/-- Embedding of `generator.ensure_today_puzzle`: return the stored record
when its date is today, otherwise generate. -/
def ensure_today_puzzle (today : Nat) (s : State) : Except Err (Option Payload) × State :=
  match load_today today s with
  | some t => (.ok (some (payloadOfToday t)), s)
  | none => generate_daily today s

/-- The pool filter of `generator._get_scored_candidates` (keeps every
passing candidate instead of returning the first). -/
def filterPool (recentSigs : List String) (skipOver : Bool)
    (wordCount : String → Nat) (scored : List (CandidatePattern × ℚ)) :
    List (CandidatePattern × ℚ) :=
  scored.filter (fun cs =>
    !(decide (pattern_signature cs.1 ∈ recentSigs)) &&
      !(skipOver && !(cs.1.words.filter
          (fun w => decide (MAX_WORD_REUSE_PER_MONTH ≤ wordCount w))).isEmpty))

/-- Embedding of `generator._get_scored_candidates` (it reads the history
log unconditionally once some candidate scores through, even with both skip
flags off). -/
def get_scored_candidates (table : List Row) (feature_names : List String)
    (skipRecent skipOver : Bool) (hist : HistFile) (today : Nat) :
    Except Err (List (CandidatePattern × ℚ)) :=
  let candidates := run_all_templates table feature_names 40
  let scored := filter_and_rank candidates table MIN_PQS 4 10
  if scored = [] then .ok []
  else
    match load_used_patterns hist with
    | .error e => .error e
    | .ok used =>
      let recentSigs :=
        if skipRecent then recent_signatures used today NO_REUSE_DAYS else []
      let wordCount : String → Nat :=
        fun w => if skipOver then word_use_count used today w else 0
      .ok (filterPool recentSigs skipOver wordCount scored)

/-- A throwaway candidate for total positional indexing. -/
def defaultScored : CandidatePattern × ℚ :=
  ({ words := [], rule_description := "", template_id := "", metric_a := none,
     metric_b := none, percentile_used := none, constraint_desc := none,
     raw_scores := [] }, 0)

/-- Embedding of `generator.generate_random_puzzle`.  `random.choice` is
embedded by an externally supplied index `k`, reduced modulo the pool size;
the date plays no role since both skip flags are off. -/
def generate_random_puzzle (s : State) (k : Nat) : Except Err (Option Payload) × State :=
  match load_feature_table s with
  | .error e => (.error e, s)
  | .ok (table, feature_names) =>
    match get_scored_candidates table feature_names false false s.hist 0 with
    | .error e => (.error e, s)
    | .ok pool =>
      if pool = [] then (.ok none, s)
      else
        let chosen := pool.getD (k % pool.length) defaultScored
        (.ok (some (puzzle_dict chosen.1 chosen.2)), s)

/-- Concrete row constructor for the worked examples: a word, its length
column, and constant values for every other feature column. -/
def mkRow (w : String) (len : ℚ) : Row :=
  { defaultRow with word := w, length := len, unique_letters := 2 }

/-- A concrete 20-row feature table: sixteen length-5 words and four
length-6 words, none containing rare letters. -/
def tbl20 : List Row :=
  [mkRow "aaaab" 5, mkRow "aaaac" 5, mkRow "aaaad" 5, mkRow "aaaae" 5,
   mkRow "aaaaf" 5, mkRow "aaaag" 5, mkRow "aaaah" 5, mkRow "aaaai" 5,
   mkRow "aaaal" 5, mkRow "aaaam" 5, mkRow "aaaan" 5, mkRow "aaaao" 5,
   mkRow "aaaap" 5, mkRow "aaaar" 5, mkRow "aaaas" 5, mkRow "aaaat" 5,
   mkRow "bbbbba" 6, mkRow "bbbbbc" 6, mkRow "bbbbbd" 6, mkRow "bbbbbe" 6]

/-- The stored feature-name list of the concrete table artifact. -/
def fnames20 : List String := ["length"]

/-- The high-extreme candidate the pipeline finds on `tbl20`. -/
def candA : CandidatePattern :=
  { words := ["bbbbba", "bbbbbc", "bbbbbd", "bbbbbe"]
    rule_description := "Words with highest length"
    template_id := "extreme_outliers"
    metric_a := some "length"
    metric_b := none
    percentile_used := some 99.9
    constraint_desc := some "length>=5"
    raw_scores := [("outlier_strength", 6)] }

/-- The low-extreme candidate the pipeline finds on `tbl20` (sixteen rows
qualify, evenly subsampled down to eight). -/
def candB : CandidatePattern :=
  { words := ["aaaab", "aaaad", "aaaaf", "aaaah", "aaaal", "aaaan", "aaaap", "aaaas"]
    rule_description := "Words with lowest length"
    template_id := "extreme_outliers"
    metric_a := some "length"
    metric_b := none
    percentile_used := some 0.1
    constraint_desc := some "length>=5"
    raw_scores := [("outlier_strength", 5)] }

/-- The initial file-system state of the worked daily run: a built feature
table, an empty history log, no today record. -/
def state0 : State :=
  { table := some (tbl20, fnames20), hist := .entries [], todayFile := .absent }

/-- The hints the engine generates for `candA`. -/
def hintsA : List String :=
  ["The pattern is about how long the words are.",
   "These words are similar in their number of letters.",
   "They all have an unusually high word length compared to most English words."]

/-- The history entry the first daily run on `state0` appends (day 1000). -/
def entryA : UsedEntry :=
  { date := 1000, rule := "Words with highest length",
    template_id := "extreme_outliers", metric_a := some "length",
    metric_b := none, constraint_desc := some "length>=5",
    words := ["bbbbba", "bbbbbc", "bbbbbd", "bbbbbe"], pqs := 3/2 }

/-- The today record the first daily run on `state0` writes. -/
def todayA : TodayPayload :=
  { date := 1000, words := ["bbbbba", "bbbbbc", "bbbbbd", "bbbbbe"],
    hints := hintsA, rule := "Words with highest length",
    difficulty := "medium", pqs := 3/2, metric_a := some "length" }

/-- The file-system state after the first daily run on `state0`. -/
def state1 : State :=
  { table := some (tbl20, fnames20), hist := .entries [entryA],
    todayFile := .stored todayA }

/-- The payload the first daily run on `state0` returns. -/
def payloadA : Payload :=
  { words := ["bbbbba", "bbbbbc", "bbbbbd", "bbbbbe"],
    rule := "Words with highest length", template_id := some "extreme_outliers",
    pqs := 3/2, difficulty := "medium", hints := hintsA,
    metric_a := some "length", date := some 1000 }

/-- C6: for every candidate pattern and table, the Pattern Quality Score
equals exactly `0.4·outlier + 0.3·coherence + 0.4·guessability −
0.5·obscurity`. -/
theorem c6_pqs_weights (c : CandidatePattern) (table : List Row) :
    pqs c table =
      0.4 * outlier_strength c table + 0.3 * internal_coherence c table
        + 0.4 * human_guessability c - 0.5 * obscurity_penalty c := by
  unfold pqs; ring

/-- C8: `generate_random_puzzle` never touches the persisted state: for any
state and pick index the final state equals the initial one, so the history
log and the today record are unchanged (and hence unchanged under any
number of repeated calls). -/
theorem c8_random_puzzle_no_write (s : State) (k : Nat) :
    (generate_random_puzzle s k).2 = s := by
  unfold generate_random_puzzle
  (repeat' split) <;> rfl

/-- The failing input of C4: a built feature table whose pipeline scores at
least one candidate, together with a corrupt `used_patterns.json`. -/
def stateCorrupt : State :=
  { table := some (tbl20, fnames20), hist := .corrupt, todayFile := .absent }

set_option maxRecDepth 4000 in
/-- C4 (code bug): with a corrupt history log, `generate_daily` raises
`json.JSONDecodeError` out of `load_used_patterns` instead of failing open
to an empty history — the spec (and the `load_today` sibling, which does
catch the error) show fail-open was the intent. -/
theorem c4_corrupt_history_raises :
    generate_daily 1000 stateCorrupt = (.error .malformedJson, stateCorrupt) := by
  decide

/-- A candidate with zero selected words (and a primary metric). -/
def candEmpty : CandidatePattern :=
  { words := [], rule_description := "", template_id := "extreme_outliers",
    metric_a := some "length", metric_b := none, percentile_used := none,
    constraint_desc := none, raw_scores := [] }

/-- C7 counterexample: with zero selected words the internal-coherence
sub-score is `0.0`, not the `1.0` the claim states for "fewer than 2
selected words (including zero)". -/
theorem c7_counterexample :
    internal_coherence candEmpty tbl20 = 0 ∧ internal_coherence candEmpty tbl20 ≠ 1 := by
  decide

/-- Eleven distinct five-letter words without rare letters. -/
def w11 : List String :=
  ["aabaa", "aabab", "aabac", "aabad", "aabae", "aabaf", "aabag", "aabah",
   "aabai", "aabal", "aabam"]

/-- An eleven-row table on which every feature column is constant. -/
def tblZ : List Row := w11.map (fun w => mkRow w 5)

/-- An eleven-word candidate scoring exactly the minimum threshold `0.7`. -/
def candBig : CandidatePattern :=
  { words := w11, rule_description := "r", template_id := "extreme_outliers",
    metric_a := some "length", metric_b := none, percentile_used := none,
    constraint_desc := none, raw_scores := [] }

/-- C3 counterexample: a candidate with 11 words (inside the claimed
`[4,12]`) and PQS at least `0.7` that the generation pipeline's filtering call
(`min_words=4, max_words=10`) nevertheless drops. -/
theorem c3_counterexample :
    4 ≤ candBig.words.length ∧ candBig.words.length ≤ 12
      ∧ MIN_PQS ≤ pqs candBig tblZ
      ∧ filter_and_rank [candBig] tblZ MIN_PQS 4 10 = [] := by
  decide

set_option maxRecDepth 4000 in
/-- C1 counterexample: on the concrete state `state0`, the first
`generate_daily` call returns `payloadA` and stores the matching today
record, but a second call on the same day does not return the stored
puzzle — it re-runs selection (the fresh history entry now blocks every
candidate's signature) and returns `none`. -/
theorem c1_counterexample :
    generate_daily 1000 state0 = (.ok (some payloadA), state1)
      ∧ load_today 1000 state1 = some todayA
      ∧ generate_daily 1000 state1 = (.ok none, state1) := by
  decide

/-- A successful `generate_daily` run leaves a today record dated today. -/
theorem generate_daily_stores_today (today : Nat) (s : State) (p : Payload)
    (s' : State) (h : generate_daily today s = (.ok (some p), s')) :
    ∃ t : TodayPayload, s'.todayFile = TodayFile.stored t ∧ t.date = today := by
  unfold generate_daily at h
  split at h
  · exact absurd h (by simp)
  · split at h
    · exact absurd h (by simp)
    · exact absurd h (by simp)
    · split at h
      · exact absurd h (by simp)
      · have h2 := congrArg Prod.snd h
        simp only [] at h2
        subst h2
        exact ⟨_, rfl, rfl⟩

/-- C1 (amended): `generate_daily` itself always re-runs selection; the
idempotence the claim describes belongs to `ensure_today_puzzle`.  After any
call of `ensure_today_puzzle` that returns a puzzle, the stored today record
matches today, and a second call on the same date returns that stored
record unchanged — it does not re-run selection or touch the state. -/
theorem c1_ensure_today_idempotent (today : Nat) (s : State) (p : Payload)
    (s' : State) (h : ensure_today_puzzle today s = (.ok (some p), s')) :
    ∃ t, load_today today s' = some t ∧
      ensure_today_puzzle today s' = (.ok (some (payloadOfToday t)), s') := by
  unfold ensure_today_puzzle at h
  cases hl : load_today today s with
  | some t =>
    rw [hl] at h
    have hs : s' = s := by
      have h2 := congrArg Prod.snd h; simpa using h2.symm
    refine ⟨t, ?_, ?_⟩
    · rw [hs]; exact hl
    · rw [hs]; unfold ensure_today_puzzle; rw [hl]
  | none =>
    rw [hl] at h
    obtain ⟨t, ht, htd⟩ := generate_daily_stores_today today s p s' h
    have hload : load_today today s' = some t := by
      unfold load_today; rw [ht]; simp [htd]
    refine ⟨t, hload, ?_⟩
    unfold ensure_today_puzzle
    rw [hload]

set_option maxRecDepth 4000 in
/-- C1 witness: the amended theorem applied to the concrete first run on
`state0`. -/
theorem c1_witness :
    ∃ t, load_today 1000 state1 = some t ∧
      ensure_today_puzzle 1000 state1 = (.ok (some (payloadOfToday t)), state1) :=
  c1_ensure_today_idempotent 1000 state0 payloadA state1 (by decide)

/-- The amended C7 claim's coherence formula, stated in the spec's
vocabulary: `0.0` for an empty selection or a missing primary metric;
`1.0` for fewer than 2 matching rows or zero population variance;
otherwise `max(0, 1 − stddev_sel / stddev_all)`. -/
def coherence_spec (c : CandidatePattern) (table : List Row) : ℚ :=
  if c.words = [] ∨ c.metric_a = none then 0
  else
    let m := c.metric_a.getD ""
    let selVals := (table.filter (fun r => decide (r.word ∈ c.words))).map
      (fun r => getCol r m)
    let allVals := table.map (fun r => getCol r m)
    if selVals.length < 2 then 1
    else if listVar allVals = 0 then 1
    else max 0 (1 - listStd selVals / listStd allVals)

/-- C7 (amended): the internal-coherence sub-score follows the spec formula
except that an empty word list (or missing metric) scores `0.0`, not `1.0`;
the zero-stddev test of the code is the zero-variance test of the spec. -/
theorem c7_internal_coherence_spec (c : CandidatePattern) (table : List Row) :
    internal_coherence c table = coherence_spec c table := by
  unfold internal_coherence coherence_spec
  rcases hm : c.metric_a with _ | m
  · by_cases hw : c.words = [] <;> simp [hw]
  · by_cases hw : c.words = []
    · simp [hw]
    · simp only [hw, hm, Option.getD_some, if_false, false_or, if_neg,
        Option.some.injEq, reduceCtorEq, or_false, ite_false]
      simp only [listStd_eq_zero_iff]

/-- A reachable-shaped extreme-outliers candidate whose rule says `"low"`
but not `"lowest"`. -/
def candLowRule : CandidatePattern :=
  { words := ["aaaab", "aaaad", "aaaaf", "aaaah"],
    rule_description := "Words with low length",
    template_id := "extreme_outliers", metric_a := some "length",
    metric_b := none, percentile_used := some 0.1,
    constraint_desc := some "length>=5", raw_scores := [] }

/-- C9 counterexample: the rule of `candLowRule` does not contain
`"lowest"`, yet the third hint's direction comes out `"low"` — the code also
tests for the substring `"low "`, so "low iff the rule contains lowest"
is false. -/
theorem c9_counterexample :
    strContains (strLower candLowRule.rule_description) "lowest" = false
      ∧ generate_hints candLowRule =
        ["The pattern is about how long the words are.",
         "These words are similar in their number of letters.",
         "They all have an unusually low word length compared to most English words."] := by
  decide

/-- C9 (amended): the hint generator returns exactly 3 strings; for
templates other than Extreme Outliers they are the metric's fixed template
verbatim; for Extreme Outliers the third hint gets direction `"low"` iff
the rule description contains `"lowest"` or `"low "` (case-insensitive),
else `"high"`, inserted only when the stock third hint says "unusual"
without already naming a direction. -/
theorem c9_hints_spec (p : CandidatePattern) :
    (generate_hints p).length = 3 ∧
    (∀ h1 h2 h3, metricHintsD (effMetric p) = [h1, h2, h3] →
      (p.template_id ≠ "extreme_outliers" → generate_hints p = [h1, h2, h3]) ∧
      (p.template_id = "extreme_outliers" →
        generate_hints p = [h1, h2,
          if strContains h3 "unusual" && !strContains (strLower h3) "high"
              && !strContains (strLower h3) "low"
          then replaceFirst h3 "unusual" ("unusually "
            ++ (if strContains (strLower p.rule_description) "lowest"
                  || strContains (strLower p.rule_description) "low "
                then "low" else "high"))
          else h3])) := by
  constructor
  · unfold generate_hints; rfl
  · intro h1 h2 h3 heq
    unfold generate_hints direction_from_rule
    rw [heq]
    constructor
    · intro ht
      simp [ht]
    · intro ht
      simp [ht]

set_option maxRecDepth 4000 in
/-- C9 witness: the amended theorem instantiated at `candA`, whose rule says
`"highest"`, yielding the `"unusually high"` third hint. -/
theorem c9_witness :
    generate_hints candA =
      ["The pattern is about how long the words are.",
       "These words are similar in their number of letters.",
       "They all have an unusually high word length compared to most English words."] := by
  have h := ((c9_hints_spec candA).2
    "The pattern is about how long the words are."
    "These words are similar in their number of letters."
    "They all have an unusual word length compared to most English words."
    (by decide)).2 (by decide)
  rw [h]
  decide

theorem insertLe_perm {α : Type} (le : α → α → Bool) (a : α) (l : List α) :
    (insertLe le a l).Perm (a :: l) := by
  induction l with
  | nil => exact List.Perm.refl _
  | cons b t ih =>
    unfold insertLe
    by_cases h : le a b = true
    · simp [h]
    · simp only [h, if_false, Bool.false_eq_true, ite_false]
      exact (ih.cons b).trans (List.Perm.swap a b t)

theorem insertionSort_perm {α : Type} (le : α → α → Bool) (l : List α) :
    (insertionSort le l).Perm l := by
  induction l with
  | nil => exact List.Perm.refl _
  | cons a t ih => exact (insertLe_perm le a _).trans (ih.cons a)

theorem mem_insertLe {α : Type} (le : α → α → Bool) (a x : α) (l : List α) :
    x ∈ insertLe le a l ↔ x = a ∨ x ∈ l := by
  rw [(insertLe_perm le a l).mem_iff, List.mem_cons]

theorem pairwise_insertLe {α : Type} (le : α → α → Bool)
    (htot : ∀ a b, le a b = true ∨ le b a = true)
    (htrans : ∀ a b c, le a b = true → le b c = true → le a c = true)
    (a : α) (l : List α) (hl : l.Pairwise (fun x y => le x y = true)) :
    (insertLe le a l).Pairwise (fun x y => le x y = true) := by
  induction l with
  | nil => simp [insertLe]
  | cons b t ih =>
    rcases List.pairwise_cons.1 hl with ⟨hb, ht⟩
    unfold insertLe
    by_cases h : le a b = true
    · simp only [h, if_true]
      refine List.pairwise_cons.2 ⟨?_, hl⟩
      intro x hx
      rcases List.mem_cons.1 hx with rfl | hxt
      · exact h
      · exact htrans a b x h (hb x hxt)
    · simp only [h, if_false, Bool.false_eq_true, ite_false]
      refine List.pairwise_cons.2 ⟨?_, ih ht⟩
      intro x hx
      rcases (mem_insertLe le a x t).1 hx with rfl | hxt
      · rcases htot x b with hxb | hbx
        · exact absurd hxb h
        · exact hbx
      · exact hb x hxt

theorem pairwise_insertionSort {α : Type} (le : α → α → Bool)
    (htot : ∀ a b, le a b = true ∨ le b a = true)
    (htrans : ∀ a b c, le a b = true → le b c = true → le a c = true)
    (l : List α) :
    (insertionSort le l).Pairwise (fun x y => le x y = true) := by
  induction l with
  | nil => simp [insertionSort]
  | cons a t ih => exact pairwise_insertLe le htot htrans a _ ih

/-- C3 (amended): the generation pipeline's filtering call (which passes
`min_pqs = 0.7`, `min_words = 4`, `max_words = 10`) keeps exactly the
candidates whose word count lies in `[4,10]` and whose PQS is at least
`0.7`, paired with their scores, and returns them sorted by PQS
descending. -/
theorem c3_filter_and_rank_pipeline (cands : List CandidatePattern) (table : List Row) :
    (∀ c s, (c, s) ∈ filter_and_rank cands table MIN_PQS 4 10 ↔
      (c ∈ cands ∧ 4 ≤ c.words.length ∧ c.words.length ≤ 10
        ∧ s = pqs c table ∧ MIN_PQS ≤ s)) ∧
    List.Sorted (fun a b => b ≤ a)
      ((filter_and_rank cands table MIN_PQS 4 10).map Prod.snd) := by
  unfold filter_and_rank
  constructor
  · intro c s
    rw [(insertionSort_perm _ _).mem_iff, List.mem_filterMap]
    constructor
    · rintro ⟨a, ha, hfa⟩
      by_cases hlen : 4 ≤ a.words.length ∧ a.words.length ≤ 10
      · simp only [hlen, if_true] at hfa
        by_cases hs : MIN_PQS ≤ pqs a table
        · simp only [hs, if_true, Option.some.injEq, Prod.mk.injEq] at hfa
          obtain ⟨rfl, rfl⟩ := hfa
          exact ⟨ha, hlen.1, hlen.2, rfl, hs⟩
        · simp [hs] at hfa
      · simp [hlen] at hfa
    · rintro ⟨hc, h1, h2, rfl, hs⟩
      refine ⟨c, hc, ?_⟩
      simp [h1, h2, hs]
  · have hp := pairwise_insertionSort (fun a b : CandidatePattern × ℚ => decide (b.2 ≤ a.2))
      (fun a b => by
        rcases le_total b.2 a.2 with h | h
        · exact Or.inl (by simpa using h)
        · exact Or.inr (by simpa using h))
      (fun a b c hab hbc => by
        simp only [decide_eq_true_eq] at hab hbc ⊢
        exact le_trans hbc hab)
      (cands.filterMap (fun c =>
        if 4 ≤ c.words.length ∧ c.words.length ≤ 10 then
          let s := pqs c table
          if MIN_PQS ≤ s then some (c, s) else none
        else none))
    rw [List.Sorted, List.pairwise_map]
    exact hp.imp (fun h => by simpa using h)

theorem pickFirst_spec (recentSigs : List String) (skipOver : Bool)
    (wordCount : String → Nat) (l : List (CandidatePattern × ℚ))
    (c : CandidatePattern) (s : ℚ)
    (h : pickFirst recentSigs skipOver wordCount l = some (c, s)) :
    pattern_signature c ∉ recentSigs ∧
      (skipOver = true →
        c.words.filter (fun w => decide (MAX_WORD_REUSE_PER_MONTH ≤ wordCount w)) = []) := by
  induction l with
  | nil => simp [pickFirst] at h
  | cons p rest ih =>
    obtain ⟨c0, s0⟩ := p
    unfold pickFirst at h
    by_cases h1 : pattern_signature c0 ∈ recentSigs
    · simp only [h1, if_true] at h
      exact ih h
    · simp only [h1, if_false, ite_false] at h
      by_cases h2 : skipOver = true ∧
          c0.words.filter (fun w => decide (MAX_WORD_REUSE_PER_MONTH ≤ wordCount w)) ≠ []
      · rw [if_pos (by exact_mod_cast h2)] at h
        exact ih h
      · rw [if_neg (by exact_mod_cast h2)] at h
        obtain ⟨rfl, rfl⟩ : c0 = c ∧ s0 = s := by
          simpa [Prod.ext_iff] using h
        push_neg at h2
        exact ⟨h1, fun hs => h2 hs⟩

theorem length_filter_le_word_use_count (used : List UsedEntry) (today : Nat)
    (w : String) :
    (used.filter (fun u => decide (today - 31 ≤ u.date) && decide (w ∈ u.words))).length
      ≤ word_use_count used today w := by
  unfold word_use_count
  induction used with
  | nil => simp
  | cons u t ih =>
    by_cases hd : today - 31 ≤ u.date
    · by_cases hw : w ∈ u.words
      · have hc : 0 < u.words.count w := List.count_pos_iff.2 hw
        rw [List.filter_cons_of_pos (by simp [hd, hw]),
          List.filter_cons_of_pos (by simp [hd]), List.length_cons,
          List.map_cons, List.sum_cons]
        omega
      · rw [List.filter_cons_of_neg (by simp [hd, hw]),
          List.filter_cons_of_pos (by simp [hd]), List.map_cons, List.sum_cons]
        omega
    · rw [List.filter_cons_of_neg (by simp [hd]),
        List.filter_cons_of_neg (by simp [hd])]
      exact ih

/-- C2: whatever the history log and however selection turns out, the daily
selector (`skip_recent_metric_combos` and `skip_overused_words` both on, as
`generate_daily` calls it) never returns a candidate whose rule signature
(template id, primary metric, secondary metric, constraint description)
matches a history entry dated within the last 30 days, nor one containing a
word that appears in at least 2 history entries dated within the last 31
days. -/
theorem c2_history_constraints (table : List Row) (fnames : List String)
    (hist : HistFile) (today : Nat) (used : List UsedEntry)
    (c : CandidatePattern) (s : ℚ)
    (hload : load_used_patterns hist = .ok used)
    (hsel : select_best_pattern table fnames true true hist today = .ok (some (c, s))) :
    (∀ u ∈ used, today - NO_REUSE_DAYS ≤ u.date →
      ¬(u.template_id = c.template_id ∧ u.metric_a = c.metric_a
        ∧ u.metric_b = c.metric_b ∧ u.constraint_desc = c.constraint_desc)) ∧
    (∀ w ∈ c.words,
      (used.filter (fun u => decide (today - 31 ≤ u.date) && decide (w ∈ u.words))).length
        < MAX_WORD_REUSE_PER_MONTH) := by
  unfold select_best_pattern at hsel
  by_cases hsc : filter_and_rank (run_all_templates table fnames 40) table MIN_PQS 4 10 = []
  · simp [hsc] at hsel
  · simp only [hsc, if_false, ite_false, hload, if_true, ite_true,
      Except.ok.injEq] at hsel
    have hpick := pickFirst_spec _ _ _ _ _ _ hsel
    obtain ⟨hsig, hwords⟩ := hpick
    constructor
    · rintro u hu hrecent ⟨e1, e2, e3, e4⟩
      apply hsig
      have hsame : entry_signature u = pattern_signature c := by
        unfold entry_signature pattern_signature
        rw [e1, e2, e3, e4]
      rw [← hsame]
      unfold recent_signatures
      exact List.mem_map.2 ⟨u, List.mem_filter.2 ⟨hu, by simpa using hrecent⟩, rfl⟩
    · intro w hw
      have hf := hwords rfl
      rw [List.filter_eq_nil_iff] at hf
      have hlt : word_use_count used today w < MAX_WORD_REUSE_PER_MONTH := by
        have := hf w hw
        simp only [decide_eq_true_eq] at this
        omega
      exact lt_of_le_of_lt (length_filter_le_word_use_count used today w) hlt

/-- A recent history entry with a different rule signature and one
previously used word. -/
def entryC : UsedEntry :=
  { date := 995,
    rule := "Words with very high entropy among words that have unique_letters â‰¥ 6",
    template_id := "constrained_extremes", metric_a := some "entropy",
    metric_b := some "unique_letters",
    constraint_desc := some "unique_letters>=6", words := ["aaaab"], pqs := 1 }

set_option maxRecDepth 4000 in
/-- C2 witness: on `tbl20` with the one-entry history `[entryC]`, selection
succeeds (returning `candA`), and the theorem's guarantees hold at that
concrete outcome. -/
theorem c2_witness :
    load_used_patterns (.entries [entryC]) = .ok [entryC]
      ∧ select_best_pattern tbl20 fnames20 true true (.entries [entryC]) 1000
          = .ok (some (candA, 3/2))
      ∧ ((∀ u ∈ [entryC], 1000 - NO_REUSE_DAYS ≤ u.date →
            ¬(u.template_id = candA.template_id ∧ u.metric_a = candA.metric_a
              ∧ u.metric_b = candA.metric_b ∧ u.constraint_desc = candA.constraint_desc)) ∧
          (∀ w ∈ candA.words,
            ([entryC].filter (fun u => decide (1000 - 31 ≤ u.date)
                && decide (w ∈ u.words))).length < MAX_WORD_REUSE_PER_MONTH)) :=
  ⟨by decide, by decide,
    c2_history_constraints tbl20 fnames20 (.entries [entryC]) 1000 [entryC]
      candA (3/2) (by decide) (by decide)⟩

theorem evenSample_length {α : Type} (l : List α) (maxC : Nat) (d : α) :
    (evenSample l maxC d).length = if l.length ≤ maxC then l.length else maxC := by
  unfold evenSample
  by_cases h : l.length ≤ maxC
  · rw [if_pos h, if_pos h]
  · rw [if_neg h, if_neg h, List.length_map, List.length_range]

theorem mem_evenSample {α : Type} (l : List α) (maxC : Nat) (d : α)
    (hmax : 0 < maxC) (x : α) (hx : x ∈ evenSample l maxC d) : x ∈ l := by
  unfold evenSample at hx
  by_cases hlen : l.length ≤ maxC
  · rwa [if_pos hlen] at hx
  · rw [if_neg hlen, List.mem_map] at hx
    obtain ⟨i, hi, rfl⟩ := hx
    rw [List.mem_range] at hi
    have hlpos : 0 < l.length := by omega
    have hstep : (0 : ℚ) < (l.length : ℚ) / (maxC : ℚ) :=
      div_pos (by exact_mod_cast hlpos) (by exact_mod_cast hmax)
    have h1 : (i : ℚ) * ((l.length : ℚ) / (maxC : ℚ)) < (l.length : ℚ) := by
      have hic : (i : ℚ) < (maxC : ℚ) := by exact_mod_cast hi
      calc (i : ℚ) * ((l.length : ℚ) / (maxC : ℚ))
          < (maxC : ℚ) * ((l.length : ℚ) / (maxC : ℚ)) :=
            mul_lt_mul_of_pos_right hic hstep
        _ = (l.length : ℚ) := by
            field_simp
    have h2 : ⌊(i : ℚ) * ((l.length : ℚ) / (maxC : ℚ))⌋ < (l.length : ℤ) :=
      Int.floor_lt.2 (by exact_mod_cast h1)
    have h3 : 0 ≤ ⌊(i : ℚ) * ((l.length : ℚ) / (maxC : ℚ))⌋ :=
      Int.floor_nonneg.2 (mul_nonneg (by exact_mod_cast Nat.zero_le i) (le_of_lt hstep))
    have hbound : (⌊(i : ℚ) * ((l.length : ℚ) / (maxC : ℚ))⌋).toNat < l.length := by
      omega
    rw [List.getD_eq_getElem l d hbound]
    exact List.getElem_mem hbound

/-- C5: every candidate the Extreme-Outliers template returns selects only
words backed by rows inside the length window `[min_word_length, 18]` whose
primary-metric value is at or beyond the computed percentile threshold
(at-or-above for the high direction, at-or-below for the low one), and has
between 4 and `max_candidates = 8` words. -/
theorem c5_extreme_outliers_bounds (table : List Row) (fnames : List String)
    (minLen : ℚ) (useHigh : Bool) (c : CandidatePattern)
    (hc : c ∈ template_extreme_outliers table fnames 99.9 0.1 minLen 8 useHigh) :
    ∃ metric, c.metric_a = some metric
      ∧ 4 ≤ c.words.length ∧ c.words.length ≤ 8
      ∧ ∀ w ∈ c.words, ∃ r, r ∈ table ∧ r.word = w
          ∧ minLen ≤ r.length ∧ r.length ≤ 18
          ∧ (useHigh = true →
              extremeThresh table 99.9 0.1 minLen true metric ≤ getCol r metric)
          ∧ (useHigh = false →
              getCol r metric ≤ extremeThresh table 99.9 0.1 minLen false metric) := by
  unfold template_extreme_outliers at hc
  rw [List.mem_filterMap] at hc
  obtain ⟨metric, hmf, hsome⟩ := hc
  unfold extremeForMetric at hsome
  by_cases hw : metric = "word"
  · rw [if_pos hw] at hsome; exact absurd hsome (by simp)
  · rw [if_neg hw] at hsome
    by_cases h20 : (table.filter (maskLen minLen)).length < 20
    · rw [if_pos h20] at hsome; exact absurd hsome (by simp)
    · rw [if_neg h20] at hsome
      by_cases h4 : (extremeSel table 99.9 0.1 minLen useHigh metric).length < 4
      · rw [if_pos h4] at hsome; exact absurd hsome (by simp)
      · rw [if_neg h4] at hsome
        obtain rfl := Option.some.inj hsome
        refine ⟨metric, rfl, ?_, ?_, ?_⟩
        · simp only [List.length_map, evenSample_length]
          split <;> omega
        · simp only [List.length_map, evenSample_length]
          split <;> omega
        · intro w hwmem
          simp only [List.mem_map] at hwmem
          obtain ⟨r, hr, rfl⟩ := hwmem
          have hrsel : r ∈ extremeSel table 99.9 0.1 minLen useHigh metric :=
            mem_evenSample _ 8 _ (by omega) r hr
          unfold extremeSel at hrsel
          rw [List.mem_filter] at hrsel
          obtain ⟨hrt, hpred⟩ := hrsel
          rw [Bool.and_eq_true] at hpred
          obtain ⟨hmask, hdir⟩ := hpred
          unfold maskLen at hmask
          rw [Bool.and_eq_true, decide_eq_true_eq, decide_eq_true_eq] at hmask
          refine ⟨r, hrt, rfl, hmask.1, hmask.2, ?_, ?_⟩
          · intro hu
            subst hu
            simpa using hdir
          · intro hu
            subst hu
            simpa using hdir

set_option maxRecDepth 4000 in
/-- C5 witness: the theorem applied to the concrete candidate `candA` found
by the high-direction template run on `tbl20`. -/
theorem c5_witness :
    candA ∈ template_extreme_outliers tbl20 fnames20 99.9 0.1 5 8 true
      ∧ ∃ metric, candA.metric_a = some metric
          ∧ 4 ≤ candA.words.length ∧ candA.words.length ≤ 8
          ∧ ∀ w ∈ candA.words, ∃ r, r ∈ tbl20 ∧ r.word = w
              ∧ 5 ≤ r.length ∧ r.length ≤ 18
              ∧ (true = true →
                  extremeThresh tbl20 99.9 0.1 5 true metric ≤ getCol r metric)
              ∧ (true = false →
                  getCol r metric ≤ extremeThresh tbl20 99.9 0.1 5 false metric) :=
  ⟨by decide, c5_extreme_outliers_bounds tbl20 fnames20 5 true candA (by decide)⟩

/-- Division that records the division-by-zero hazard: `none` models a
float division whose guard failed. -/
def divChecked (a b : ℚ) : Option ℚ := if b = 0 then none else some (a / b)

/-- Run a fallible function over a list, propagating failure (the checked
model of a Python loop whose body may raise). -/
def optionMapAll {α β : Type} (f : α → Option β) : List α → Option (List β)
  | [] => some []
  | a :: t =>
    match f a, optionMapAll f t with
    | some b, some bs => some (b :: bs)
    | _, _ => none

/-- Checked variant of `patterns._z_scores`: every division goes through
`divChecked`, so a `some` result certifies that no division by zero was
reachable. -/
def zScoresChecked (xs : List ℚ) : Option (List ℚ) :=
  let m := listMean xs
  let s := listStd xs
  if s = 0 then some (xs.map (fun _ => 0))
  else optionMapAll (fun x => divChecked (x - m) s) xs

theorem mapM_option_total {α β : Type} (f : α → Option β) (g : α → β)
    (h : ∀ a, f a = some (g a)) (l : List α) : optionMapAll f l = some (l.map g) := by
  induction l with
  | nil => rfl
  | cons a t ih => simp [optionMapAll, h, ih]

theorem zScoresChecked_eq (xs : List ℚ) : zScoresChecked xs = some (zScores xs) := by
  unfold zScoresChecked zScores
  by_cases h : listStd xs = 0
  · simp [h]
  · simp only [h, if_false, ite_false]
    exact mapM_option_total _ _ (fun x => by simp [divChecked, h]) xs

/-- Checked variant of `ratioForPair` (outer `none` models a raised
exception; inner `Option` is the loop's skip-or-append as before). -/
def ratioForPairChecked (table : List Row) (feature_names : List String)
    (minLen : ℚ) (maxC : Nat) (pr : String × String) :
    Option (Option CandidatePattern) :=
  if pr.1 ∈ feature_names ∧ pr.2 ∈ feature_names then
    let sub := table.filter (maskLen minLen)
    if sub.length < 20 then some none
    else
      match zScoresChecked (sub.map (fun r => getCol r pr.1)),
            zScoresChecked (sub.map (fun r => getCol r pr.2)) with
      | some za, some zb =>
        let combo := List.zipWith (fun a b => a - b) za zb
        let thresh := percentileQ combo 99
        let selPairs := (sub.zip combo).filter (fun rc => decide (thresh ≤ rc.2))
        if selPairs.length < 4 then some none
        else
          let chosen := evenSample selPairs maxC (defaultRow, 0)
          some (some
            { words := chosen.map (fun rc => rc.1.word)
              rule_description :=
                "Words with unusually high " ++ pr.1 ++ " and low " ++ pr.2
                  ++ " (ratio anomaly)"
              template_id := "ratio_anomaly"
              metric_a := some pr.1
              metric_b := some pr.2
              percentile_used := some 99
              constraint_desc := none
              raw_scores :=
                [("combo_z",
                  listMean ((selPairs.map (fun rc => rc.2)).take chosen.length))] })
      | _, _ => none
  else some none

/-- Checked variant of `patterns.template_ratio_anomalies`: `none` would
mean some iteration raised. -/
def template_ratio_anomalies_checked (table : List Row)
    (feature_names : List String) (minLen : ℚ) (maxC : Nat) :
    Option (List CandidatePattern) :=
  if (table.filter (maskLen minLen)).length < 50 then some []
  else
    (optionMapAll (ratioForPairChecked table feature_names minLen maxC)
      ratioPairs).map (fun l => l.filterMap id)

theorem ratioForPairChecked_eq (table : List Row) (feature_names : List String)
    (minLen : ℚ) (maxC : Nat) (pr : String × String) :
    ratioForPairChecked table feature_names minLen maxC pr
      = some (ratioForPair table feature_names minLen maxC pr) := by
  unfold ratioForPairChecked ratioForPair
  by_cases hmem : pr.1 ∈ feature_names ∧ pr.2 ∈ feature_names
  · rw [if_pos hmem, if_pos hmem]
    by_cases h20 : (table.filter (maskLen minLen)).length < 20
    · simp [h20]
    · simp only [h20, if_false, ite_false, zScoresChecked_eq]
      rw [apply_ite (some : Option CandidatePattern → Option (Option CandidatePattern))]
  · rw [if_neg hmem, if_neg hmem]

/-- C10: the Ratio-Anomalies template is total: the z-score standardization
maps a zero-standard-deviation column to the all-zero vector instead of
dividing by it, and the checked variant of the template (where every
division is guarded) always returns `some` list — it never raises, and the
list it returns is exactly the unchecked template's. -/
theorem c10_ratio_template_total :
    (∀ xs : List ℚ, listStd xs = 0 → zScores xs = xs.map (fun _ => 0)) ∧
    (∀ (table : List Row) (fnames : List String) (minLen : ℚ) (maxC : Nat),
      template_ratio_anomalies_checked table fnames minLen maxC
        = some (template_ratio_anomalies table fnames minLen maxC)) := by
  constructor
  · intro xs h
    unfold zScores
    simp [h]
  · intro table fnames minLen maxC
    unfold template_ratio_anomalies_checked template_ratio_anomalies
    by_cases h50 : (table.filter (maskLen minLen)).length < 50
    · simp [h50]
    · simp only [h50, if_false, ite_false]
      rw [mapM_option_total _ _ (ratioForPairChecked_eq table fnames minLen maxC)
        ratioPairs]
      simp [List.filterMap_map]

/-- C10 witness: a concrete zero-variance column standardizes to the zero
vector, and the checked template agrees with the unchecked one on the
concrete table. -/
theorem c10_witness :
    listStd [(1 : ℚ), 1, 1] = 0
      ∧ zScores [(1 : ℚ), 1, 1] = [0, 0, 0]
      ∧ template_ratio_anomalies_checked tbl20 fnames20 5 8
          = some (template_ratio_anomalies tbl20 fnames20 5 8) :=
  ⟨by decide,
   by rw [c10_ratio_template_total.1 [(1 : ℚ), 1, 1] (by decide)]; decide,
   c10_ratio_template_total.2 tbl20 fnames20 5 8⟩

end DailyGame
